import Mathlib

/-!
Shallow embedding of `src/master/Home.py` (the whole repository is this one
Streamlit program).  The embedding covers the pieces the claims are about:

* the section catalog `SECTIONS` (Home.py lines 75-87),
* the document assembler `create_docx` (lines 141-222), modelled as a pure
  function producing the ordered list of body elements the python-docx calls
  append (headings, paragraphs, page breaks); styling that is applied once
  and globally (fonts, borders, margins, the footer literal) carries no
  per-content behaviour and is not part of the element list,
* the generation loop behind the "Generate Documentation" button
  (lines 281-359), with the two LLM backends abstracted as an oracle
  `Backend → String → Except String String` (an exception or a response),
* the feedback handler behind the "Submit Feedback" button (lines 385-430).

Python string operations are re-implemented over `List Char` with structural
recursion so that every definition evaluates by kernel reduction.  Python's
`str.strip`/`str.split()` treat a slightly larger whitespace set (form feed,
vertical tab) than `Char.isWhitespace`; no text handled here contains those
characters.  `str.upper` agrees with `Char.toUpper` on ASCII.
-/

namespace Home

/-- Keys of the `SECTIONS` dict, Home.py lines 75-87, in insertion order. -/
inductive SectionKey where
  | COVER_PAGE
  | CONTENTS
  | ABSTRACT
  | LITERATURE_SURVEY
  | CHAPTER_1
  | CHAPTER_2
  | CHAPTER_3
  | CHAPTER_4
  | CHAPTER_5
  | CHAPTER_6
  | REFERENCES
deriving DecidableEq, Repr

/-- Value of one `SECTIONS` entry: title, page target, optional description. -/
structure SectionInfo where
  title : String
  pages : Nat
  description : Option String := none
deriving DecidableEq, Repr

/-- The section catalog, Home.py lines 75-87.  A Python 3.7+ dict iterates in
insertion order, so the catalog is an ordered association list. -/
def SECTIONS : List (SectionKey × SectionInfo) :=
  [ (.COVER_PAGE, { title := "COVER PAGE", pages := 1 }),
    (.CONTENTS, { title := "TABLE OF CONTENTS", pages := 1 }),
    (.ABSTRACT, { title := "ABSTRACT", pages := 1, description := some "Provides a high-level summary of the project, including objectives, methodology, and expected outcomes." }),
    (.LITERATURE_SURVEY, { title := "LITERATURE SURVEY", pages := 3, description := some "Reviews existing research, technologies, and methodologies related to the project." }),
    (.CHAPTER_1, { title := "CHAPTER 1: INTRODUCTION", pages := 3, description := some "Explains the background, significance, and objectives of the project." }),
    (.CHAPTER_2, { title := "CHAPTER 2: WORKING AND BLOCK DIAGRAM", pages := 4, description := some "Details the working principle and block diagram representation of the system." }),
    (.CHAPTER_3, { title := "CHAPTER 3: HARDWARE COMPONENTS DESCRIPTION", pages := 5, description := some "Describes the components used (Arduino, Bluetooth module, motor driver, sensors, etc.)." }),
    (.CHAPTER_4, { title := "CHAPTER 4: SOFTWARE DESCRIPTION", pages := 4, description := some "Covers programming aspects, including Arduino code and mobile app interface." }),
    (.CHAPTER_5, { title := "CHAPTER 5: ADVANTAGES & APPLICATIONS", pages := 2, description := some "Highlights benefits and potential real-world applications of the project." }),
    (.CHAPTER_6, { title := "CHAPTER 6: FUTURE SCOPE & CONCLUSION", pages := 2, description := some "Discusses improvements, extensions, and final remarks on the project." }),
    (.REFERENCES, { title := "REFERENCES", pages := 1, description := some "Lists cited sources, books, research papers, and online materials." }) ]

/-- `SECTIONS[key]` (every key is present, so the default is unreachable). -/
def sectionInfo (k : SectionKey) : SectionInfo :=
  ((SECTIONS.find? (fun p => decide (p.1 = k))).map (fun p => p.2)).getD
    { title := "", pages := 0 }

/-- The `st.session_state.metadata` dict, built at Home.py lines 258-264: the
five keys are always present (Streamlit text inputs default to `""`). -/
structure Metadata where
  title : String
  author : String
  institution : String
  project_type : String
  date : String
deriving DecidableEq, Repr

/-! ### Python string primitives, over `List Char` -/

/-- Python `str.strip()`: whitespace removed from both ends. -/
def pyStrip (s : String) : String :=
  String.mk (((s.data.dropWhile Char.isWhitespace).reverse.dropWhile
    Char.isWhitespace).reverse)

/-- Python `str.strip('#')`: literal `#` characters removed from both ends. -/
def pyStripHash (s : String) : String :=
  String.mk (((s.data.dropWhile (fun c => c == '#')).reverse.dropWhile
    (fun c => c == '#')).reverse)

/-- Python `str.upper()` (ASCII; the generated text is ASCII). -/
def pyUpper (s : String) : String :=
  String.mk (s.data.map Char.toUpper)

/-- Python `str.startswith('#')` applied to an already stripped string. -/
def startsWithHash (s : String) : Bool :=
  match s.data with
  | [] => false
  | c :: _ => c == '#'

/-- Helper for `pySplitWs`: split at each whitespace character, keeping
empty pieces (they are filtered away afterwards, as Python `split()` does). -/
def pySplitWsAux : List Char → List Char → List (List Char)
  | [], acc => [acc.reverse]
  | c :: cs, acc =>
    if c.isWhitespace then acc.reverse :: pySplitWsAux cs []
    else pySplitWsAux cs (c :: acc)

/-- Python `str.split()` with no separator: maximal non-whitespace runs. -/
def pySplitWs (s : String) : List String :=
  ((pySplitWsAux s.data []).map String.mk).filter (fun t => !(t == ""))

/-- Helper for `pySplitParas`: leftmost, non-overlapping split on the
two-character separator `"\n\n"`, exactly as Python `str.split('\n\n')`. -/
def pySplitParasAux : List Char → List Char → List (List Char)
  | '\n' :: '\n' :: cs, acc => acc.reverse :: pySplitParasAux cs []
  | c :: cs, acc => pySplitParasAux cs (c :: acc)
  | [], acc => [acc.reverse]

/-- Python `content.split('\n\n')` (Home.py line 191). -/
def pySplitParas (s : String) : List String :=
  (pySplitParasAux s.data []).map String.mk

/-! ### The assembled document -/

/-- Paragraph alignment as set by the assembler; `styleDefault` marks an
element on which the code sets no explicit alignment. -/
inductive Align where
  | center
  | justify
  | left
  | styleDefault
deriving DecidableEq, Repr, BEq

/-- One element appended to the python-docx `Document` body: a heading with
its level argument, a (possibly multi-run) paragraph with its text, or a page
break. -/
inductive DocElem where
  | heading (text : String) (level : Nat) (align : Align)
  | para (text : String) (align : Align)
  | pageBreak
deriving DecidableEq, Repr, BEq

/-- Cover page block, Home.py lines 155-170: the level-0 title heading, one
centered paragraph per non-empty metadata field among author, institution and
date (`metadata.get(field)` is falsy exactly on the empty string), and the
image placeholder. -/
def coverBlock (md : Metadata) : List DocElem :=
  [DocElem.heading (pyUpper md.title) 0 Align.center]
  ++ (if md.author == "" then [] else [DocElem.para (pyUpper md.author) Align.center])
  ++ (if md.institution == "" then [] else [DocElem.para (pyUpper md.institution) Align.center])
  ++ (if md.date == "" then [] else [DocElem.para (pyUpper md.date) Align.center])
  ++ [DocElem.para "[Space reserved for project image]" Align.center]

/-- Placeholder table-of-contents block, Home.py lines 126-139. -/
def add_placeholder_toc : List DocElem :=
  [DocElem.heading "TABLE OF CONTENTS" 1 Align.styleDefault,
   DocElem.para "This Table of Contents will automatically update when you open the document in Microsoft Word. Right-click and select 'Update Field' to update it." Align.styleDefault,
   DocElem.para "To replace this with an actual Table of Contents in Word:" Align.styleDefault,
   DocElem.para "1. Delete this text" Align.styleDefault,
   DocElem.para "2. Go to References tab" Align.styleDefault,
   DocElem.para "3. Click 'Table of Contents'" Align.styleDefault,
   DocElem.para "4. Select a style" Align.styleDefault]

/-- Rendering of one stored paragraph, Home.py lines 193-205: a non-blank
paragraph whose stripped text starts with `#` becomes a left-aligned
sub-heading at level `len(para.split()[0].strip('#')) + 1` with the remaining
whitespace-separated words upper-cased and joined by single spaces; any other
non-blank paragraph becomes a justified body paragraph of its stripped text;
a blank paragraph renders nothing.  This pure form records the elements the
source requests from python-docx; the library's `add_heading` level guard
(a `ValueError` for a level outside 0-9) is modelled by `renderParaChecked`
below, whose successful value this function is (`renderParaChecked_ok`). -/
def renderPara (para : String) : List DocElem :=
  if pyStrip para == "" then []
  else if startsWithHash (pyStrip para) then
    let level := (pyStripHash ((pySplitWs para).headD "")).length
    let text := pyUpper (String.intercalate " " ((pySplitWs para).drop 1))
    [DocElem.heading text (level + 1) Align.left]
  else
    [DocElem.para (pyStrip para) Align.justify]

/-- Rendering of one section's stored text: split on blank lines, render each
paragraph (Home.py lines 190-205). -/
def renderContent (content : String) : List DocElem :=
  ((pySplitParas content).map renderPara).flatten

/-- The `section_key in ['COVER_PAGE', 'CONTENTS']` test of Home.py line 181. -/
def isFrontMatter : SectionKey → Bool
  | .COVER_PAGE => true
  | .CONTENTS => true
  | _ => false

/-- One chapter of the loop at Home.py lines 179-208: centered level-1 title
heading, the stored content if the key is present in `doc_sections` (nothing
otherwise), then a page break. -/
def sectionBlock (ds : SectionKey → Option String) (k : SectionKey)
    (info : SectionInfo) : List DocElem :=
  [DocElem.heading info.title 1 Align.center]
  ++ (match ds k with
      | some content => renderContent content
      | none => [])
  ++ [DocElem.pageBreak]

/-- `create_docx`, Home.py lines 141-222, as the ordered list of body
elements it appends; `ds` is membership/lookup in
`st.session_state.doc_sections`.  Global styling, margins and the footer
literal add no body elements.  This pure form is the document body when
assembly succeeds; the source can raise mid-assembly, because python-docx's
`add_heading` rejects a level outside 0-9 and a stored paragraph whose
marker token keeps nine or more characters after stripping `#` reaches it
with a level above 9.  That error path is modelled by `create_docxChecked`
below (whose successful value this function is, `create_docxChecked_ok`);
on an exception nothing is written, since `doc.save` at line 221 is never
reached and the exception is caught by the calling handler's `except`. -/
def create_docx (md : Metadata) (ds : SectionKey → Option String) : List DocElem :=
  coverBlock md ++ [DocElem.pageBreak]
  ++ add_placeholder_toc ++ [DocElem.pageBreak]
  ++ (SECTIONS.map (fun p =>
        cond (isFrontMatter p.1) [] (sectionBlock ds p.1 p.2))).flatten

/-- Chapter headings are exactly the elements `create_docx` emits as section
titles: level-1 headings with explicit center alignment (the TOC heading has
no explicit alignment, sub-headings are left-aligned, the cover heading is
level 0). -/
def isChapterHeading : DocElem → Bool
  | DocElem.heading _ lv al => al == Align.center && lv == 1
  | _ => false

/-- Page-break test for counting. -/
def isPageBreak : DocElem → Bool
  | DocElem.pageBreak => true
  | _ => false

/-- Number of page breaks in an assembled document body. -/
def numPageBreaks (doc : List DocElem) : Nat :=
  doc.countP isPageBreak

/-! ### The two LLM backends and the generation loop -/

/-- The two interchangeable LLM backends: `groq_model` (line 71) and
`google_model` (line 72). -/
inductive Backend where
  | groq
  | google
deriving DecidableEq, Repr

/-- An invocation oracle: what `model.invoke(prompt).content` returns, or the
message of the exception it raises.  The clients are opaque external
services; the code treats any failure as a generic exception. -/
abbrev Oracle := Backend → String → Except String String

/-- Section-specific guidance, Home.py lines 304-310. -/
def section_guidance (key : SectionKey) : String :=
  if key = SectionKey.CHAPTER_3 then
    "Focus on hardware components like Arduino, sensors, and other electronic components. Describe their specifications and roles in detail."
  else if key = SectionKey.CHAPTER_4 then
    "Explain the programming approach, include pseudocode or algorithm descriptions (not actual code), and detail the software workflow."
  else if key = SectionKey.LITERATURE_SURVEY then
    "Review at least 5-7 similar projects or related research papers, mentioning their approaches and results."
  else ""

/-- The generation prompt, Home.py lines 312-335: a verbatim transcription of
the f-string, indentation of the triple-quoted literal included (each
continuation line of the source carries 32 leading spaces, blank lines
included, and the string ends in a newline plus that indentation). -/
def buildPrompt (info : SectionInfo) (guidance : String)
    (project_type project_abstract technologies objectives components : String) : String :=
  "Generate the " ++ info.title ++ " section for the following " ++ project_type ++ " project:\n" ++
  "                                \n" ++
  "                                Abstract: " ++ project_abstract ++ "\n" ++
  "                                \n" ++
  "                                Section Purpose: " ++ info.description.getD "" ++ "\n" ++
  "                                \n" ++
  "                                Additional Context:\n" ++
  "                                - Technologies: " ++ technologies ++ "\n" ++
  "                                - Objectives: " ++ objectives ++ "\n" ++
  "                                - Components: " ++ components ++ "\n" ++
  "                                - " ++ guidance ++ "\n" ++
  "                                \n" ++
  "                                Requirements:\n" ++
  "                                1. This section should be approximately " ++ toString info.pages ++ " pages long (about " ++ toString (info.pages * 500) ++ " words)\n" ++
  "                                2. Use clear, straightforward explanations with appropriate technical depth\n" ++
  "                                3. Organize content with clear sections and subsections\n" ++
  "                                4. For headings, use plain text format (no special characters)\n" ++
  "                                5. Write in a professional academic style with proper citations where appropriate\n" ++
  "                                6. Use proper paragraph breaks for readability\n" ++
  "                                7. Focus on factual information that would be relevant to this type of project\n" ++
  "                                8. For CHAPTER_2, include descriptions of block diagrams (not the diagrams themselves)\n" ++
  "                                9. Make this content unique, avoiding generic templates\n" ++
  "                                10. Ensure all content is technically accurate and plausible\n" ++
  "                                "

/-- Observation of one pass of the loop body at Home.py lines 288-342: the
section reached, `len(st.session_state.doc_sections)` at that moment, and the
model line 295 selects from that count. -/
structure GenStep where
  key : SectionKey
  storedBefore : Nat
  selected : Backend
deriving DecidableEq, Repr

/-- Result of the generation loop: `stored` is `st.session_state.doc_sections`
(a Python dict in insertion order), `calls` the backend invocations actually
performed in order (the failing one included), `log` the per-section
observations, and `error` the message of the exception that aborted the run,
if any. -/
structure GenResult where
  stored : List (SectionKey × String)
  calls : List (Backend × SectionKey)
  log : List GenStep
  error : Option String
deriving DecidableEq, Repr

/-- The `for section_key, section_info in SECTIONS.items()` loop of Home.py
lines 288-342: skip the cover page; select a model by the parity of the
number of sections already stored (line 295); build the prompt; store the
fixed literal for `CONTENTS` without any invocation (lines 337-339);
otherwise invoke the selected model and store its response (lines 341-342).
An exception propagates to the `except` at line 356, aborting the loop with
the partial `stored` intact. -/
def genLoop (oracle : Oracle)
    (project_abstract technologies objectives components project_type : String) :
    List (SectionKey × SectionInfo) → List (SectionKey × String) →
    List (Backend × SectionKey) → List GenStep → GenResult
  | [], stored, calls, log => { stored, calls, log, error := none }
  | (key, info) :: rest, stored, calls, log =>
    if key = SectionKey.COVER_PAGE then
      genLoop oracle project_abstract technologies objectives components
        project_type rest stored calls log
    else
      let model := if stored.length % 2 = 0 then Backend.groq else Backend.google
      let prompt := buildPrompt info (section_guidance key) project_type
        project_abstract technologies objectives components
      let log2 := log ++ [{ key, storedBefore := stored.length, selected := model }]
      if key = SectionKey.CONTENTS then
        genLoop oracle project_abstract technologies objectives components
          project_type rest (stored ++ [(key, "TABLE OF CONTENTS")]) calls log2
      else
        match oracle model prompt with
        | Except.ok response =>
          genLoop oracle project_abstract technologies objectives components
            project_type rest (stored ++ [(key, response)])
            (calls ++ [(model, key)]) log2
        | Except.error e =>
          { stored, calls := calls ++ [(model, key)], log := log2, error := some e }

/-- One full generation run over the catalog, starting from the freshly
cleared `doc_sections` of Home.py line 285. -/
def runGeneration (oracle : Oracle)
    (project_abstract technologies objectives components project_type : String) :
    GenResult :=
  genLoop oracle project_abstract technologies objectives components
    project_type SECTIONS [] [] []

/-! ### Session state and the two UI handlers -/

/-- A user-facing message: `st.warning`, `st.error` or `st.success`. -/
inductive Effect where
  | warning (msg : String)
  | errorMsg (msg : String)
  | successMsg (msg : String)
deriving DecidableEq, Repr

/-- One entry of `st.session_state.feedback_history`, appended at Home.py
lines 420-424; `sect` is the dict's `"section"` key and holds the section's
display title, not its identifier. -/
structure FeedbackRecord where
  sect : String
  feedback : String
  timestamp : String
deriving DecidableEq, Repr

/-- The session state the claims are about: `doc_sections` (a dict in
insertion order), `feedback_history`, `has_generated`, and the document last
written to the fixed output path (none before the first successful
assembly). -/
structure AppState where
  doc_sections : List (SectionKey × String)
  feedback_history : List FeedbackRecord
  has_generated : Bool
  savedDoc : Option (List DocElem)
deriving DecidableEq, Repr

/-- Python dict lookup `d.get(k)` / `k in d` on the stored sections: the
first (and only) entry with the key. -/
def storedGet (l : List (SectionKey × String)) (k : SectionKey) : Option String :=
  (l.find? (fun p => decide (p.1 = k))).map (fun p => p.2)

/-- The "Generate Documentation" handler, Home.py lines 281-359: an empty
abstract is rejected with a warning and nothing happens (line 359);
otherwise `doc_sections` is cleared and the loop runs; on success the
document is assembled and saved and `has_generated` is set; an exception
leaves the partial `doc_sections` in place and reports one generic error.
The third component is the list of backend invocations performed. -/
def generateHandler (oracle : Oracle) (md : Metadata)
    (project_abstract technologies objectives components : String)
    (st : AppState) : AppState × List Effect × List (Backend × SectionKey) :=
  if project_abstract == "" then
    (st, [Effect.warning "Please enter a project abstract."], [])
  else
    let r := runGeneration oracle project_abstract technologies objectives
      components md.project_type
    match r.error with
    | none =>
      ({ st with doc_sections := r.stored,
                 has_generated := true,
                 savedDoc := some (create_docx md (storedGet r.stored)) },
       [Effect.successMsg "Documentation generated successfully!"], r.calls)
    | some e =>
      ({ st with doc_sections := r.stored },
       [Effect.errorMsg ("Error generating documentation: " ++ e)], r.calls)

/-- The order in which the generation loop processes sections: the catalog
minus the cover page (Home.py lines 288-291). -/
def genOrderList : List SectionKey :=
  [.CONTENTS, .ABSTRACT, .LITERATURE_SURVEY, .CHAPTER_1, .CHAPTER_2,
   .CHAPTER_3, .CHAPTER_4, .CHAPTER_5, .CHAPTER_6, .REFERENCES]

/-- Facts about one generation run that hold for every oracle and every
input; the claim theorems below project out of this bundle. -/
def GoodRun (r : GenResult) : Prop :=
  (r.error = none → r.stored.length = 10) ∧
  storedGet r.stored SectionKey.CONTENTS = some "TABLE OF CONTENTS" ∧
  (∀ c ∈ r.calls, c.2 ≠ SectionKey.CONTENTS) ∧
  (∀ s ∈ r.log,
    s.selected = if s.storedBefore % 2 = 0 then Backend.groq else Backend.google) ∧
  r.stored.map Prod.fst <+: genOrderList ∧
  r.log.head? = some { key := SectionKey.CONTENTS, storedBefore := 0, selected := Backend.groq } ∧
  r.calls.head? = some (Backend.google, SectionKey.ABSTRACT) ∧
  (r.calls[1]? = none ∨ r.calls[1]? = some (Backend.groq, SectionKey.LITERATURE_SURVEY))

/-- String `sub` occurs verbatim inside `s`. -/
def containsStr (s sub : String) : Prop :=
  ∃ a b : String, s = a ++ sub ++ b

/-- A backend oracle whose every invocation succeeds with a fixed text. -/
def okOracle : Oracle := fun _ _ => Except.ok "Generated content."

/-- A backend oracle whose every invocation raises an exception. -/
def failOracle : Oracle := fun _ _ => Except.error "boom"

/-- Concrete metadata for the end-to-end scenario of the spec. -/
def exMetadata : Metadata :=
  { title := "Bluetooth Robot Car", author := "A Student",
    institution := "An Institute", project_type := "Arduino-based",
    date := "October 12, 2025" }

/-- The abstract of the end-to-end scenario of the spec. -/
def exAbstract : String := "A Bluetooth-controlled robot car using Arduino"

/-- A concrete session state with two generated sections, used to
instantiate the feedback and failure theorems. -/
def exState : AppState :=
  { doc_sections := [(SectionKey.CHAPTER_3, "Old chapter text."),
                     (SectionKey.ABSTRACT, "Abstract text.")],
    feedback_history := [], has_generated := true, savedDoc := none }

/-- Model of python-docx `Document.add_heading`: the library raises
`ValueError("level must be in range 0-9")` when the level argument lies
outside 0-9 (a `Nat` level is never below 0). -/
def addHeading (text : String) (level : Nat) (align : Align) : Except String DocElem :=
  if level ≤ 9 then Except.ok (DocElem.heading text level align)
  else Except.error "level must be in range 0-9"

/-- Fallible rendering of one stored paragraph: as `renderPara`, but the
sub-heading path goes through `addHeading`, so a paragraph whose first token
keeps nine or more characters after stripping `#` raises (its computed level
plus one exceeds 9). -/
def renderParaChecked (para : String) : Except String (List DocElem) :=
  if pyStrip para == "" then Except.ok []
  else if startsWithHash (pyStrip para) then
    (addHeading (pyUpper (String.intercalate " " ((pySplitWs para).drop 1)))
      ((pyStripHash ((pySplitWs para).headD "")).length + 1) Align.left).map
      (fun h => [h])
  else Except.ok [DocElem.para (pyStrip para) Align.justify]

/-- Fallible rendering of a list of paragraphs: the first exception aborts
the whole assembly. -/
def renderParasChecked : List String → Except String (List DocElem)
  | [] => Except.ok []
  | p :: ps =>
    match renderParaChecked p with
    | Except.error e => Except.error e
    | Except.ok elems =>
      match renderParasChecked ps with
      | Except.error e => Except.error e
      | Except.ok rest => Except.ok (elems ++ rest)

/-- Fallible rendering of one section's stored text (Home.py lines 190-205). -/
def renderContentChecked (content : String) : Except String (List DocElem) :=
  renderParasChecked (pySplitParas content)

/-- Fallible chapter block: the chapter title heading itself is added at
level 1, inside `add_heading`'s range, so only the stored content can
raise. -/
def sectionBlockChecked (ds : SectionKey → Option String) (k : SectionKey)
    (info : SectionInfo) : Except String (List DocElem) :=
  match (match ds k with
         | some content => renderContentChecked content
         | none => Except.ok []) with
  | Except.error e => Except.error e
  | Except.ok body =>
    Except.ok ([DocElem.heading info.title 1 Align.center] ++ body ++ [DocElem.pageBreak])

/-- Fallible rendering of the section loop of Home.py lines 179-208, in
catalog order, aborting at the first exception. -/
def renderSectionsChecked (ds : SectionKey → Option String) :
    List (SectionKey × SectionInfo) → Except String (List DocElem)
  | [] => Except.ok []
  | p :: rest =>
    match cond (isFrontMatter p.1) (Except.ok []) (sectionBlockChecked ds p.1 p.2) with
    | Except.error e => Except.error e
    | Except.ok blk =>
      match renderSectionsChecked ds rest with
      | Except.error e => Except.error e
      | Except.ok tail => Except.ok (blk ++ tail)

/-- The fallible `create_docx`: the cover heading (level 0), the metadata
paragraphs and the TOC block (heading level 1) never raise; the content
sections may.  On success the body equals `create_docx` (see
`create_docxChecked_ok`). -/
def create_docxChecked (md : Metadata) (ds : SectionKey → Option String) :
    Except String (List DocElem) :=
  match renderSectionsChecked ds SECTIONS with
  | Except.error e => Except.error e
  | Except.ok blocks =>
    Except.ok (coverBlock md ++ [DocElem.pageBreak] ++ add_placeholder_toc ++
      [DocElem.pageBreak] ++ blocks)

/-- SectionContent with one generated section and the rest missing. -/
def dsPartial : SectionKey → Option String :=
  fun k => if k = SectionKey.ABSTRACT then some "Generated content." else none

/-- SectionContent holding a stored paragraph whose marker token keeps 12
characters after stripping `#`: the source computes level 12 and calls
`add_heading` with 13, which raises. -/
def dsBad : SectionKey → Option String :=
  fun k => if k = SectionKey.ABSTRACT then some "#Introduction" else none

/-! ### Helper lemmas -/

theorem containsStr_self (s : String) : containsStr s s :=
  ⟨"", "", by simp⟩

theorem containsStr_appL (s t sub : String) (h : containsStr s sub) :
    containsStr (s ++ t) sub := by
  obtain ⟨a, b, rfl⟩ := h
  exact ⟨a, b ++ t, by simp [String.append_assoc]⟩

theorem containsStr_appR (s t sub : String) (h : containsStr t sub) :
    containsStr (s ++ t) sub := by
  obtain ⟨a, b, rfl⟩ := h
  exact ⟨s ++ a, b, by simp [String.append_assoc]⟩

set_option maxHeartbeats 1000000 in
theorem genRun_spec (oracle : Oracle) (pa te ob co pt : String) :
    GoodRun (runGeneration oracle pa te ob co pt) := by
  unfold runGeneration
  simp only [SECTIONS]
  rw [genLoop]
  simp
  rw [genLoop]
  simp
  rw [genLoop]; simp; split
  on_goal 2 => (refine ⟨by first | exact fun h => Option.noConfusion h | exact fun h => rfl, rfl, ?_, ?_, ?_, rfl, rfl, ?_⟩ <;> (simp [genOrderList] <;> decide))
  rw [genLoop]; simp; split
  on_goal 2 => (refine ⟨by first | exact fun h => Option.noConfusion h | exact fun h => rfl, rfl, ?_, ?_, ?_, rfl, rfl, ?_⟩ <;> (simp [genOrderList] <;> decide))
  rw [genLoop]; simp; split
  on_goal 2 => (refine ⟨by first | exact fun h => Option.noConfusion h | exact fun h => rfl, rfl, ?_, ?_, ?_, rfl, rfl, ?_⟩ <;> (simp [genOrderList] <;> decide))
  rw [genLoop]; simp; split
  on_goal 2 => (refine ⟨by first | exact fun h => Option.noConfusion h | exact fun h => rfl, rfl, ?_, ?_, ?_, rfl, rfl, ?_⟩ <;> (simp [genOrderList] <;> decide))
  rw [genLoop]; simp; split
  on_goal 2 => (refine ⟨by first | exact fun h => Option.noConfusion h | exact fun h => rfl, rfl, ?_, ?_, ?_, rfl, rfl, ?_⟩ <;> (simp [genOrderList] <;> decide))
  rw [genLoop]; simp; split
  on_goal 2 => (refine ⟨by first | exact fun h => Option.noConfusion h | exact fun h => rfl, rfl, ?_, ?_, ?_, rfl, rfl, ?_⟩ <;> (simp [genOrderList] <;> decide))
  rw [genLoop]; simp; split
  on_goal 2 => (refine ⟨by first | exact fun h => Option.noConfusion h | exact fun h => rfl, rfl, ?_, ?_, ?_, rfl, rfl, ?_⟩ <;> (simp [genOrderList] <;> decide))
  rw [genLoop]; simp; split
  on_goal 2 => (refine ⟨by first | exact fun h => Option.noConfusion h | exact fun h => rfl, rfl, ?_, ?_, ?_, rfl, rfl, ?_⟩ <;> (simp [genOrderList] <;> decide))
  rw [genLoop]; simp; split
  on_goal 2 => (refine ⟨by first | exact fun h => Option.noConfusion h | exact fun h => rfl, rfl, ?_, ?_, ?_, rfl, rfl, ?_⟩ <;> (simp [genOrderList] <;> decide))
  rw [genLoop]
  (refine ⟨by first | exact fun h => Option.noConfusion h | exact fun h => rfl, rfl, ?_, ?_, ?_, rfl, rfl, ?_⟩ <;> (simp [genOrderList] <;> decide))

theorem countPB_renderPara (p : String) :
    (renderPara p).countP isPageBreak = 0 := by
  unfold renderPara
  split
  · rfl
  · split <;> rfl

theorem countPB_renderParas (l : List String) :
    ((l.map renderPara).flatten).countP isPageBreak = 0 := by
  induction l with
  | nil => rfl
  | cons p ps ih => simp [List.countP_append, countPB_renderPara, ih]

theorem countPB_renderContent (c : String) :
    (renderContent c).countP isPageBreak = 0 := by
  unfold renderContent
  exact countPB_renderParas _

theorem countPB_sectionBlock (ds : SectionKey → Option String) (k : SectionKey)
    (info : SectionInfo) : (sectionBlock ds k info).countP isPageBreak = 1 := by
  unfold sectionBlock
  cases h : ds k with
  | none => rfl
  | some c =>
    dsimp only
    rw [List.countP_append, List.countP_append, countPB_renderContent]
    rfl

theorem numPageBreaks_create_docx (md : Metadata) (ds : SectionKey → Option String) :
    numPageBreaks (create_docx md ds) = 11 := by
  have hcover : (coverBlock md).countP isPageBreak = 0 := by
    unfold coverBlock
    split <;> split <;> split <;> rfl
  have htoc : add_placeholder_toc.countP isPageBreak = 0 := rfl
  unfold numPageBreaks create_docx
  simp [SECTIONS, List.countP_append, hcover, htoc, countPB_sectionBlock,
    isFrontMatter, List.countP_cons, isPageBreak]

theorem filterCh_renderPara (p : String) :
    (renderPara p).filter isChapterHeading = [] := by
  unfold renderPara
  split
  · rfl
  · split <;> rfl

theorem filterCh_renderParas (l : List String) :
    ((l.map renderPara).flatten).filter isChapterHeading = [] := by
  induction l with
  | nil => rfl
  | cons p ps ih => simp [List.filter_append, filterCh_renderPara, ih]

theorem filterCh_renderContent (c : String) :
    (renderContent c).filter isChapterHeading = [] := by
  unfold renderContent
  exact filterCh_renderParas _

theorem filterCh_sectionBlock (ds : SectionKey → Option String) (k : SectionKey)
    (info : SectionInfo) :
    (sectionBlock ds k info).filter isChapterHeading =
      [DocElem.heading info.title 1 Align.center] := by
  unfold sectionBlock
  cases h : ds k with
  | none => rfl
  | some c =>
    dsimp only
    rw [List.filter_append, List.filter_append, filterCh_renderContent]
    rfl

theorem renderParaChecked_ok (p : String) (l : List DocElem)
    (h : renderParaChecked p = Except.ok l) : l = renderPara p := by
  unfold renderParaChecked addHeading at h
  unfold renderPara
  split at h
  · next h1 =>
    simp only [Except.ok.injEq] at h
    subst h
    rw [if_pos h1]
  · next h1 =>
    split at h
    · next h2 =>
      split at h
      · simp only [Except.map, Except.ok.injEq] at h
        subst h
        rw [if_neg h1, if_pos h2]
      · simp [Except.map] at h
    · next h2 =>
      simp only [Except.ok.injEq] at h
      subst h
      rw [if_neg h1, if_neg h2]

theorem renderParasChecked_ok (ps : List String) (l : List DocElem)
    (h : renderParasChecked ps = Except.ok l) :
    l = (ps.map renderPara).flatten := by
  induction ps generalizing l with
  | nil =>
    simp only [renderParasChecked, Except.ok.injEq] at h
    subst h
    rfl
  | cons p ps ih =>
    unfold renderParasChecked at h
    split at h
    · exact Except.noConfusion h
    · next elems heq1 =>
      split at h
      · exact Except.noConfusion h
      · next rest heq2 =>
        simp only [Except.ok.injEq] at h
        subst h
        simp only [List.map_cons, List.flatten_cons]
        rw [renderParaChecked_ok p elems heq1, ih rest heq2]

theorem renderContentChecked_ok (c : String) (l : List DocElem)
    (h : renderContentChecked c = Except.ok l) : l = renderContent c := by
  unfold renderContentChecked at h
  unfold renderContent
  exact renderParasChecked_ok _ _ h

theorem sectionBlockChecked_ok (ds : SectionKey → Option String)
    (k : SectionKey) (info : SectionInfo) (l : List DocElem)
    (h : sectionBlockChecked ds k info = Except.ok l) :
    l = sectionBlock ds k info := by
  unfold sectionBlockChecked at h
  unfold sectionBlock
  cases hds : ds k with
  | none =>
    rw [hds] at h
    simp only [Except.ok.injEq] at h
    subst h
    rfl
  | some c =>
    rw [hds] at h
    split at h
    · exact Except.noConfusion h
    · next body heq =>
      simp only [Except.ok.injEq] at h
      subst h
      rw [renderContentChecked_ok c body heq]

theorem renderSectionsChecked_ok (ds : SectionKey → Option String)
    (secs : List (SectionKey × SectionInfo)) (l : List DocElem)
    (h : renderSectionsChecked ds secs = Except.ok l) :
    l = (secs.map (fun p =>
      cond (isFrontMatter p.1) [] (sectionBlock ds p.1 p.2))).flatten := by
  induction secs generalizing l with
  | nil =>
    simp only [renderSectionsChecked, Except.ok.injEq] at h
    subst h
    rfl
  | cons p rest ih =>
    unfold renderSectionsChecked at h
    cases hfm : isFrontMatter p.1 with
    | true =>
      rw [hfm] at h
      simp only [cond_true] at h
      split at h
      · exact Except.noConfusion h
      · next tail heq =>
        simp only [Except.ok.injEq] at h
        subst h
        simp only [List.map_cons, List.flatten_cons, hfm, cond_true, List.nil_append]
        exact ih tail heq
    | false =>
      rw [hfm] at h
      simp only [cond_false] at h
      split at h
      · exact Except.noConfusion h
      · next blk heqB =>
        split at h
        · exact Except.noConfusion h
        · next tail heqT =>
          simp only [Except.ok.injEq] at h
          subst h
          simp only [List.map_cons, List.flatten_cons, hfm, cond_false]
          rw [sectionBlockChecked_ok ds p.1 p.2 blk heqB, ih tail heqT]

theorem create_docxChecked_ok (md : Metadata) (ds : SectionKey → Option String)
    (doc : List DocElem) (h : create_docxChecked md ds = Except.ok doc) :
    doc = create_docx md ds := by
  unfold create_docxChecked at h
  unfold create_docx
  split at h
  · exact Except.noConfusion h
  · next blocks heq =>
    simp only [Except.ok.injEq] at h
    subst h
    rw [renderSectionsChecked_ok ds SECTIONS blocks heq]

theorem filterCh_create_docx (md : Metadata) (ds : SectionKey → Option String) :
    (create_docx md ds).filter isChapterHeading =
      [DocElem.heading "ABSTRACT" 1 Align.center,
       DocElem.heading "LITERATURE SURVEY" 1 Align.center,
       DocElem.heading "CHAPTER 1: INTRODUCTION" 1 Align.center,
       DocElem.heading "CHAPTER 2: WORKING AND BLOCK DIAGRAM" 1 Align.center,
       DocElem.heading "CHAPTER 3: HARDWARE COMPONENTS DESCRIPTION" 1 Align.center,
       DocElem.heading "CHAPTER 4: SOFTWARE DESCRIPTION" 1 Align.center,
       DocElem.heading "CHAPTER 5: ADVANTAGES & APPLICATIONS" 1 Align.center,
       DocElem.heading "CHAPTER 6: FUTURE SCOPE & CONCLUSION" 1 Align.center,
       DocElem.heading "REFERENCES" 1 Align.center] := by
  have hcover : (coverBlock md).filter isChapterHeading = [] := by
    unfold coverBlock
    split <;> split <;> split <;> rfl
  have htoc : add_placeholder_toc.filter isChapterHeading = [] := rfl
  have hpb : isChapterHeading DocElem.pageBreak = false := rfl
  unfold create_docx
  simp [SECTIONS, List.filter_append, List.filter_cons, hcover, htoc, hpb,
    isFrontMatter, filterCh_sectionBlock]

/-! ### Claim theorems -/

/-- Claim C1, counterexample to "never causing an error": a SectionContent
holding the stored paragraph `"#Introduction"` makes assembly raise —
`len("#Introduction".strip('#'))` is 12, so the source calls `add_heading`
with level 13 and python-docx raises `ValueError("level must be in range
0-9")` mid-assembly; the claimed universally error-free, complete emission
of chapter headings is false of the program. -/
theorem assembler_never_errors_refuted :
    renderParaChecked "#Introduction" =
      Except.error "level must be in range 0-9" ∧
    create_docxChecked exMetadata dsBad =
      Except.error "level must be in range 0-9" :=
  ⟨rfl, rfl⟩

/-- Claim C1 (amended): for every ProjectMetadata and every SectionContent
mapping on which assembly succeeds (no stored paragraph drives
`add_heading`'s level argument above 9), `create_docx` emits exactly one
chapter heading per catalog SectionSpec other than the two front-matter
entries (`COVER_PAGE`, `CONTENTS`), in catalog order — the chapter headings
are exactly the centered level-1 headings of the body — and a section with
no stored entry is rendered, without error, as its heading directly
followed by the page break (empty body), never omitted. -/
theorem create_docx_one_chapter_heading_per_section (md : Metadata)
    (ds : SectionKey → Option String) (doc : List DocElem)
    (hok : create_docxChecked md ds = Except.ok doc) :
    doc.filter isChapterHeading =
      [DocElem.heading "ABSTRACT" 1 Align.center,
       DocElem.heading "LITERATURE SURVEY" 1 Align.center,
       DocElem.heading "CHAPTER 1: INTRODUCTION" 1 Align.center,
       DocElem.heading "CHAPTER 2: WORKING AND BLOCK DIAGRAM" 1 Align.center,
       DocElem.heading "CHAPTER 3: HARDWARE COMPONENTS DESCRIPTION" 1 Align.center,
       DocElem.heading "CHAPTER 4: SOFTWARE DESCRIPTION" 1 Align.center,
       DocElem.heading "CHAPTER 5: ADVANTAGES & APPLICATIONS" 1 Align.center,
       DocElem.heading "CHAPTER 6: FUTURE SCOPE & CONCLUSION" 1 Align.center,
       DocElem.heading "REFERENCES" 1 Align.center] ∧
    (∀ k info, ds k = none →
      sectionBlockChecked ds k info =
        Except.ok [DocElem.heading info.title 1 Align.center, DocElem.pageBreak]) := by
  constructor
  · rw [create_docxChecked_ok md ds doc hok]
    exact filterCh_create_docx md ds
  · intro k info hk
    unfold sectionBlockChecked
    rw [hk]
    rfl

/-- Witness for the amended C1: a SectionContent with one generated section
and nine missing ones assembles without error. -/
theorem create_docx_one_chapter_heading_per_section_witness :
    (create_docx exMetadata dsPartial).filter isChapterHeading =
      [DocElem.heading "ABSTRACT" 1 Align.center,
       DocElem.heading "LITERATURE SURVEY" 1 Align.center,
       DocElem.heading "CHAPTER 1: INTRODUCTION" 1 Align.center,
       DocElem.heading "CHAPTER 2: WORKING AND BLOCK DIAGRAM" 1 Align.center,
       DocElem.heading "CHAPTER 3: HARDWARE COMPONENTS DESCRIPTION" 1 Align.center,
       DocElem.heading "CHAPTER 4: SOFTWARE DESCRIPTION" 1 Align.center,
       DocElem.heading "CHAPTER 5: ADVANTAGES & APPLICATIONS" 1 Align.center,
       DocElem.heading "CHAPTER 6: FUTURE SCOPE & CONCLUSION" 1 Align.center,
       DocElem.heading "REFERENCES" 1 Align.center] ∧
    (∀ k info, dsPartial k = none →
      sectionBlockChecked dsPartial k info =
        Except.ok [DocElem.heading info.title 1 Align.center, DocElem.pageBreak]) :=
  create_docx_one_chapter_heading_per_section exMetadata dsPartial
    (create_docx exMetadata dsPartial) rfl

/-- Claim C2 (evaluation of the code at the inputs the claim describes): the
stored paragraph `"## Example Heading"` is rendered as a sub-heading at
nesting level 1, not 2 — `len(para.split()[0].strip('#'))` strips every `#`
from the marker token, so the computed level is 0 for any pure marker run
and `add_heading` is always called with level 1; `"### Deep Heading"`
likewise renders at level 1; a paragraph not beginning with `#` renders as a
justified body paragraph with its text unchanged in case. -/
theorem renderPara_marker_level_eval :
    renderPara "## Example Heading" = [DocElem.heading "EXAMPLE HEADING" 1 Align.left] ∧
    renderPara "### Deep Heading" = [DocElem.heading "DEEP HEADING" 1 Align.left] ∧
    renderPara "Plain text." = [DocElem.para "Plain text." Align.justify] :=
  ⟨rfl, rfl, rfl⟩

/-- Claim C3, counterexample to the page-break count: in the end-to-end
scenario (non-empty abstract, every backend call succeeding) the run stores
10 entries, but the assembled document contains 11 page breaks, not 12. -/
theorem twelve_page_breaks_refuted :
    (runGeneration okOracle exAbstract "" "" "" "Arduino-based").error = none ∧
    (runGeneration okOracle exAbstract "" "" "" "Arduino-based").stored.length = 10 ∧
    numPageBreaks (create_docx exMetadata
      (storedGet (runGeneration okOracle exAbstract "" "" "" "Arduino-based").stored)) ≠ 12 := by
  refine ⟨rfl, rfl, ?_⟩
  rw [numPageBreaks_create_docx]
  decide

/-- Claim C3 (amended): for a full generation run with a non-empty abstract,
SectionContent ends with exactly 10 entries (every catalog section except
`COVER_PAGE`, with `CONTENTS` set to the fixed literal), and the assembled
document contains exactly 11 page breaks: one after the cover page, one
after the table-of-contents block, and one after each of the 9 content
chapters. -/
theorem full_run_ten_entries_eleven_breaks (oracle : Oracle)
    (pa te ob co pt : String) (md : Metadata) (habs : pa ≠ "")
    (hok : (runGeneration oracle pa te ob co pt).error = none) :
    (runGeneration oracle pa te ob co pt).stored.length = 10 ∧
    numPageBreaks (create_docx md
      (storedGet (runGeneration oracle pa te ob co pt).stored)) = 11 :=
  ⟨(genRun_spec oracle pa te ob co pt).1 hok, numPageBreaks_create_docx md _⟩

/-- Witness for the amended C3 theorem at the end-to-end scenario inputs. -/
theorem full_run_ten_entries_eleven_breaks_witness :
    (runGeneration okOracle exAbstract "" "" "" "Arduino-based").stored.length = 10 ∧
    numPageBreaks (create_docx exMetadata
      (storedGet (runGeneration okOracle exAbstract "" "" "" "Arduino-based").stored)) = 11 :=
  full_run_ten_entries_eleven_breaks okOracle exAbstract "" "" "" "Arduino-based"
    exMetadata (by decide) rfl

/-- Claim C4: in every generation run, for every oracle and every input, the
entry stored under `CONTENTS` is the fixed literal `"TABLE OF CONTENTS"`,
and no backend invocation is ever performed for the `CONTENTS` section. -/
theorem contents_literal_never_invoked (oracle : Oracle) (pa te ob co pt : String) :
    storedGet (runGeneration oracle pa te ob co pt).stored SectionKey.CONTENTS =
      some "TABLE OF CONTENTS" ∧
    ∀ c ∈ (runGeneration oracle pa te ob co pt).calls, c.2 ≠ SectionKey.CONTENTS :=
  ⟨(genRun_spec oracle pa te ob co pt).2.1, (genRun_spec oracle pa te ob co pt).2.2.1⟩

/-- Claim C5: backend selection is purely positional — for every section
processed in a run (whatever the oracle and inputs), the model selected at
Home.py line 295 is the Groq model when the count of sections already stored
is even and the Google model when it is odd, independent of the section's
identifier. -/
theorem backend_selection_parity (oracle : Oracle) (pa te ob co pt : String) :
    ∀ s ∈ (runGeneration oracle pa te ob co pt).log,
      s.selected = if s.storedBefore % 2 = 0 then Backend.groq else Backend.google :=
  (genRun_spec oracle pa te ob co pt).2.2.2.1

/-- Witness for C5: the `ABSTRACT` step of a concrete successful run is
reached with one stored section (odd), selecting the Google model. -/
theorem backend_selection_parity_witness :
    ({ key := SectionKey.ABSTRACT, storedBefore := 1, selected := Backend.google } : GenStep).selected =
      if 1 % 2 = 0 then Backend.groq else Backend.google :=
  backend_selection_parity okOracle exAbstract "" "" "" "Arduino-based" _ (by decide)

/-- Claim C6: when a backend invocation fails during a run triggered with a
non-empty abstract, the handler reports exactly one generic user-facing
error, stores the partial section mapping accumulated before the failure
(nothing is discarded and nothing else of the session changes:
feedback history, `has_generated` and the saved document are untouched),
and that partial mapping covers, in order, a prefix of the processing
order of the catalog. -/
theorem generation_failure_preserves_state (oracle : Oracle) (md : Metadata)
    (pa te ob co : String) (st : AppState) (e : String) (habs : pa ≠ "")
    (herr : (runGeneration oracle pa te ob co md.project_type).error = some e) :
    (generateHandler oracle md pa te ob co st).1.doc_sections =
      (runGeneration oracle pa te ob co md.project_type).stored ∧
    (generateHandler oracle md pa te ob co st).1.feedback_history = st.feedback_history ∧
    (generateHandler oracle md pa te ob co st).1.has_generated = st.has_generated ∧
    (generateHandler oracle md pa te ob co st).1.savedDoc = st.savedDoc ∧
    (generateHandler oracle md pa te ob co st).2.1 =
      [Effect.errorMsg ("Error generating documentation: " ++ e)] ∧
    (runGeneration oracle pa te ob co md.project_type).stored.map Prod.fst <+: genOrderList := by
  have hne : ¬ (pa == "") = true := by simpa using habs
  unfold generateHandler
  rw [if_neg hne]
  refine ⟨?_, ?_, ?_, ?_, ?_,
    (genRun_spec oracle pa te ob co md.project_type).2.2.2.2.1⟩ <;>
  simp only [herr]

/-- Witness for C6: a run whose every backend invocation fails. -/
theorem generation_failure_preserves_state_witness :
    (generateHandler failOracle exMetadata exAbstract "" "" "" exState).1.doc_sections =
      (runGeneration failOracle exAbstract "" "" "" exMetadata.project_type).stored ∧
    (generateHandler failOracle exMetadata exAbstract "" "" "" exState).1.feedback_history =
      exState.feedback_history ∧
    (generateHandler failOracle exMetadata exAbstract "" "" "" exState).1.has_generated =
      exState.has_generated ∧
    (generateHandler failOracle exMetadata exAbstract "" "" "" exState).1.savedDoc =
      exState.savedDoc ∧
    (generateHandler failOracle exMetadata exAbstract "" "" "" exState).2.1 =
      [Effect.errorMsg ("Error generating documentation: " ++ "boom")] ∧
    (runGeneration failOracle exAbstract "" "" "" exMetadata.project_type).stored.map Prod.fst <+:
      genOrderList :=
  generation_failure_preserves_state failOracle exMetadata exAbstract "" "" ""
    exState "boom" (by decide) rfl

/-- Claim C8: when the abstract is empty, generation is rejected before any
backend invocation or prompt construction: the handler returns the state
unchanged, emits exactly the warning, and performs no backend call. -/
theorem empty_abstract_rejected (oracle : Oracle) (md : Metadata)
    (te ob co : String) (st : AppState) :
    generateHandler oracle md "" te ob co st =
      (st, [Effect.warning "Please enter a project abstract."], []) := rfl

/-- Claim C9: the prompt builder is a pure function (it is a Lean function of
its arguments, so it is deterministic by construction), and its output
contains, verbatim, the section title, the abstract text, and every
non-empty optional context field supplied (technologies, objectives,
components). -/
theorem prompt_contains_inputs (info : SectionInfo) (guidance : String)
    (project_type project_abstract technologies objectives components : String) :
    containsStr (buildPrompt info guidance project_type project_abstract
      technologies objectives components) info.title ∧
    containsStr (buildPrompt info guidance project_type project_abstract
      technologies objectives components) project_abstract ∧
    (technologies ≠ "" → containsStr (buildPrompt info guidance project_type
      project_abstract technologies objectives components) technologies) ∧
    (objectives ≠ "" → containsStr (buildPrompt info guidance project_type
      project_abstract technologies objectives components) objectives) ∧
    (components ≠ "" → containsStr (buildPrompt info guidance project_type
      project_abstract technologies objectives components) components) := by
  refine ⟨?_, ?_, fun _ => ?_, fun _ => ?_, fun _ => ?_⟩ <;> simp only [buildPrompt]
  · iterate 42 apply containsStr_appL
    exact containsStr_appR _ _ _ (containsStr_self _)
  · iterate 36 apply containsStr_appL
    exact containsStr_appR _ _ _ (containsStr_self _)
  · iterate 27 apply containsStr_appL
    exact containsStr_appR _ _ _ (containsStr_self _)
  · iterate 24 apply containsStr_appL
    exact containsStr_appR _ _ _ (containsStr_self _)
  · iterate 21 apply containsStr_appL
    exact containsStr_appR _ _ _ (containsStr_self _)

/-- Witness for C9: the prompt built for `CHAPTER_3` in the end-to-end
scenario contains the supplied non-empty technologies field verbatim. -/
theorem prompt_contains_inputs_witness :
    containsStr (buildPrompt (sectionInfo SectionKey.CHAPTER_3)
      (section_guidance SectionKey.CHAPTER_3) "Arduino-based" exAbstract
      "Arduino Uno, HC-05 Bluetooth" "Drive a car over Bluetooth" "Motors and chassis")
      "Arduino Uno, HC-05 Bluetooth" :=
  (prompt_contains_inputs (sectionInfo SectionKey.CHAPTER_3)
    (section_guidance SectionKey.CHAPTER_3) "Arduino-based" exAbstract
    "Arduino Uno, HC-05 Bluetooth" "Drive a car over Bluetooth"
    "Motors and chassis").2.2.1 (by decide)

/-- Claim C10 (implicit): in every generation run the first section logged is
`CONTENTS`, reached with zero stored sections (so the Groq model is selected
there but never invoked); the first backend actually invoked is always the
Google model, on the `ABSTRACT` section; and when a second invocation
happens it is the Groq model on `LITERATURE_SURVEY`, the second
LLM-generated section. -/
theorem first_invocation_is_google (oracle : Oracle) (pa te ob co pt : String) :
    (runGeneration oracle pa te ob co pt).log.head? =
      some { key := SectionKey.CONTENTS, storedBefore := 0, selected := Backend.groq } ∧
    (runGeneration oracle pa te ob co pt).calls.head? =
      some (Backend.google, SectionKey.ABSTRACT) ∧
    ((runGeneration oracle pa te ob co pt).calls[1]? = none ∨
      (runGeneration oracle pa te ob co pt).calls[1]? =
        some (Backend.groq, SectionKey.LITERATURE_SURVEY)) :=
  ⟨(genRun_spec oracle pa te ob co pt).2.2.2.2.2.1,
   (genRun_spec oracle pa te ob co pt).2.2.2.2.2.2.1,
   (genRun_spec oracle pa te ob co pt).2.2.2.2.2.2.2⟩

end Home
